import Mathlib

/-!
Shallow embedding of the TazzerSDK crypto-clicker repository.

Sources embedded here:
* `src/game/GameScene.ts` — the `GameStateManager` class: the eight-field
  game-state record, its mutating operations, the subscriber-notification and
  persistence mechanism, and load/save against the single storage slot.
* `src/services/TrailsService.ts` — the `TrailsService` HTTP client
  (error-message construction of `request`, the `waitIntentReceipt` poll loop)
  and the `GamePaymentService.purchaseItem` orchestration.

Modelling conventions:
* JavaScript numbers are modelled as `ℚ` (the claims under study are structural
  and hold over exact arithmetic; no claim concerns rounding).
* `Date.now()` is a nondeterministic input and becomes an explicit `now`
  parameter of the operations that read it.
* Side effects of a mutation (invoking each subscriber with a snapshot,
  serializing the record to the storage slot) are reified as an emitted list of
  `Event`s, in the order the code performs them; the subscriber set is
  abstracted to its size `k`.
* Remote calls are oracles: each step of `purchaseItem` receives its outcome
  (`Except` value) as input; the receipt-poll endpoint is a function from poll
  index to receipt.  `item.effect()` invocations are counted rather than
  executed.
-/

-- ===========================================
-- GameScene.ts : GameStateManager
-- ===========================================

/-- The eight-field record held by `GameStateManager` (interface `GameState`
in `GameScene.ts`), with JS numbers modelled as `ℚ`. -/
structure GameState where
  coins : ℚ
  clickPower : ℚ
  autoPerSecond : ℚ
  multiplier : ℚ
  multiplierEndTime : ℚ
  totalClicks : ℚ
  totalCoinsEarned : ℚ
  purchaseCount : ℚ
deriving DecidableEq, Repr

namespace GameStateManager

/-- One observable side effect of a mutating operation: a subscriber invoked
with a state snapshot, or the record serialized to the storage slot. -/
inductive Event where
  | notified (snapshot : GameState)
  | saved (snapshot : GameState)
deriving DecidableEq, Repr

/-- Whether an event is the serialization of the record to storage. -/
def Event.isSaved : Event → Bool
  | .saved _ => true
  | .notified _ => false

/-- Whether an event is a subscriber invocation. -/
def Event.isNotified : Event → Bool
  | .notified _ => true
  | .saved _ => false

/-- `private notify()` from `GameScene.ts`: invoke every listener with a
snapshot of the current state (`this.listeners.forEach(l => l(this.getState()))`),
then `this.saveState()`.  The listener set is abstracted to its size `k`;
the emitted events appear in the order the code performs them. -/
def notify (k : Nat) (g : GameState) : List Event :=
  List.replicate k (Event.notified g) ++ [Event.saved g]

/-- The default record built by `loadState()` / `resetState()` in
`GameScene.ts`. -/
def defaultState : GameState :=
  { coins := 0, clickPower := 1, autoPerSecond := 0, multiplier := 1,
    multiplierEndTime := 0, totalClicks := 0, totalCoinsEarned := 0,
    purchaseCount := 0 }

/-- `click()`: increment `totalClicks`, add `clickPower * multiplier` to
`coins` and `totalCoinsEarned`, notify, return the earned amount. -/
def click (k : Nat) (g : GameState) : GameState × List Event × ℚ :=
  let g1 := { g with totalClicks := g.totalClicks + 1 }
  let earned := g1.clickPower * g1.multiplier
  let g2 := { g1 with coins := g1.coins + earned,
                      totalCoinsEarned := g1.totalCoinsEarned + earned }
  (g2, notify k g2, earned)

/-- `autoGenerate()`: return 0 untouched when `autoPerSecond <= 0`; else add
`autoPerSecond * multiplier` to `coins` and `totalCoinsEarned`, notify, and
return the earned amount. -/
def autoGenerate (k : Nat) (g : GameState) : GameState × List Event × ℚ :=
  if g.autoPerSecond ≤ 0 then (g, [], 0)
  else
    let earned := g.autoPerSecond * g.multiplier
    let g1 := { g with coins := g.coins + earned,
                       totalCoinsEarned := g.totalCoinsEarned + earned }
    (g1, notify k g1, earned)

/-- `addClickPower(amount)`: additive increase of `clickPower`, increment
`purchaseCount`, notify. -/
def addClickPower (k : Nat) (amount : ℚ) (g : GameState) :
    GameState × List Event :=
  let g1 := { g with clickPower := g.clickPower + amount,
                     purchaseCount := g.purchaseCount + 1 }
  (g1, notify k g1)

/-- `addAutoPerSecond(amount)`: additive increase of `autoPerSecond`,
increment `purchaseCount`, notify. -/
def addAutoPerSecond (k : Nat) (amount : ℚ) (g : GameState) :
    GameState × List Event :=
  let g1 := { g with autoPerSecond := g.autoPerSecond + amount,
                     purchaseCount := g.purchaseCount + 1 }
  (g1, notify k g1)

/-- `setMultiplier(multiplier, durationMs)`: overwrite the multiplier, set
`multiplierEndTime := Date.now() + durationMs`, increment `purchaseCount`,
notify.  `now` stands for `Date.now()`. -/
def setMultiplier (k : Nat) (multiplier durationMs now : ℚ) (g : GameState) :
    GameState × List Event :=
  let g1 := { g with multiplier := multiplier,
                     multiplierEndTime := now + durationMs,
                     purchaseCount := g.purchaseCount + 1 }
  (g1, notify k g1)

/-- `checkMultiplierExpiry()`: when `multiplier > 1 && Date.now() >
multiplierEndTime`, reset the multiplier to 1 and the end time to 0, notify
and return `true`; otherwise return `false` with no state change and no
events. -/
def checkMultiplierExpiry (k : Nat) (now : ℚ) (g : GameState) :
    GameState × List Event × Bool :=
  if 1 < g.multiplier ∧ g.multiplierEndTime < now then
    let g1 := { g with multiplier := 1, multiplierEndTime := 0 }
    (g1, notify k g1, true)
  else (g, [], false)

/-- `resetState()`: replace the record with the default record, notify. -/
def resetState (k : Nat) (_g : GameState) : GameState × List Event :=
  (defaultState, notify k defaultState)

/-- A stored game record as it comes back from `JSON.parse`: each of the
eight keys may be absent (`none`).  `JSON.parse(saved)` is returned with no
validation, so `loadState` can hand back a record with missing keys. -/
structure RawState where
  coins : Option ℚ
  clickPower : Option ℚ
  autoPerSecond : Option ℚ
  multiplier : Option ℚ
  multiplierEndTime : Option ℚ
  totalClicks : Option ℚ
  totalCoinsEarned : Option ℚ
  purchaseCount : Option ℚ
deriving DecidableEq, Repr

/-- A full record, every key present — the shape `JSON.stringify` writes and
`JSON.parse` reads back for a record that was saved by `saveState()`. -/
def toRaw (g : GameState) : RawState :=
  { coins := some g.coins, clickPower := some g.clickPower,
    autoPerSecond := some g.autoPerSecond, multiplier := some g.multiplier,
    multiplierEndTime := some g.multiplierEndTime,
    totalClicks := some g.totalClicks,
    totalCoinsEarned := some g.totalCoinsEarned,
    purchaseCount := some g.purchaseCount }

/-- Content of the `cryptoClickerState` storage slot as `loadState()` sees
it: absent, present but not parseable as JSON (`JSON.parse` throws), or
parsed into some object. -/
inductive Stored where
  | missing
  | malformed
  | parsed (value : RawState)
deriving DecidableEq, Repr

/-- `private loadState()`: return `JSON.parse(saved)` unvalidated when the
slot holds parseable data; fall back to the default record when the slot is
absent or `JSON.parse` throws. -/
def loadState : Stored → RawState
  | .parsed value => value
  | .missing => toRaw defaultState
  | .malformed => toRaw defaultState

/-- `saveState()`: `JSON.stringify(this.state)` into the slot — a full
well-formed record. -/
def saveState (g : GameState) : Stored :=
  .parsed (toRaw g)

/-- The earning operations quantified over in the accounting property:
`click()` and `autoGenerate()`. -/
inductive EarnOp where
  | clickOp
  | autoOp
deriving DecidableEq, Repr

/-- Run a finite sequence of `click()` / `autoGenerate()` calls, collecting
the returned earned amounts in call order. -/
def runOps (k : Nat) : List EarnOp → GameState → GameState × List ℚ
  | [], g => (g, [])
  | .clickOp :: rest, g =>
    let step := click k g
    let tail := runOps k rest step.1
    (tail.1, step.2.2 :: tail.2)
  | .autoOp :: rest, g =>
    let step := autoGenerate k g
    let tail := runOps k rest step.1
    (tail.1, step.2.2 :: tail.2)

end GameStateManager

-- ===========================================
-- TrailsService.ts : TrailsService
-- ===========================================

namespace TrailsService

/-- The five receipt statuses of `IntentReceipt.status`. -/
inductive ReceiptStatus where
  | pending
  | processing
  | completed
  | failed
  | refunded
deriving DecidableEq, Repr

/-- The `IntentReceipt` interface. -/
structure IntentReceipt where
  intentId : String
  status : ReceiptStatus
  originTxHash : Option String := none
  destinationTxHash : Option String := none
  error : Option String := none
deriving DecidableEq, Repr

/-- The terminal-status test of the `waitIntentReceipt` loop:
`status === 'completed' || status === 'failed' || status === 'refunded'`. -/
def isTerminal (s : ReceiptStatus) : Bool :=
  s == .completed || s == .failed || s == .refunded

/-- A remote HTTP response as `request` inspects it: `ok` (2xx), the numeric
status, and the JSON body — `none` when `response.json()` rejects, otherwise
the `message` field (`none` when absent; JS treats the empty string as
falsy). -/
structure RemoteResponse where
  ok : Bool
  status : Nat
  jsonBody : Option (Option String)
deriving DecidableEq, Repr

/-- The error message `request` throws on a non-2xx response:
`const error = await response.json().catch(() => ({ message: 'Unknown error' }));`
`throw new Error(error.message || 'API error: ' + response.status)`. -/
def requestErrorMessage (status : Nat) (jsonBody : Option (Option String)) :
    String :=
  let message :=
    match jsonBody with
    | none => "Unknown error"
    | some parsedMessage => parsedMessage.getD ""
  if message = "" then "API error: " ++ toString status else message

/-- `private request(endpoint, body)` restricted to its observable
success/failure outcome: a 2xx response succeeds, a non-2xx response throws
`requestErrorMessage`. -/
def request (response : RemoteResponse) : Except String Unit :=
  if response.ok then .ok ()
  else .error (requestErrorMessage response.status response.jsonBody)

/-- The options object of `waitIntentReceipt`; absent fields take the
defaults 300000 ms and 2000 ms. -/
structure WaitOptions where
  timeout : Option ℤ := none
  pollInterval : Option ℤ := none
deriving DecidableEq, Repr

/-- The polling loop of `waitIntentReceipt`, time-explicit: polls are
instantaneous and each iteration ends with a sleep of `pollInterval`
milliseconds, so the `while (Date.now() - startTime < timeout)` guard before
the `k`-th poll reads elapsed time `k * pollInterval`.  `receipts k` is the
receipt the gateway returns to the `k`-th `getIntentReceipt` call.  The
second component counts the polls performed.  `fuel` bounds the recursion;
the caller passes enough fuel that, for a positive poll interval, the guard
fails before the fuel runs out. -/
def waitGo (receipts : Nat → IntentReceipt) (timeout pollInterval : ℤ) :
    Nat → Nat → Except String IntentReceipt × Nat
  | k, 0 => (.error "Intent receipt timeout", k)
  | k, fuel + 1 =>
    if (k : ℤ) * pollInterval < timeout then
      if isTerminal (receipts k).status then (.ok (receipts k), k + 1)
      else waitGo receipts timeout pollInterval (k + 1) fuel
    else (.error "Intent receipt timeout", k)

/-- `waitIntentReceipt(intentId, options?)`: poll `getIntentReceipt` until a
terminal receipt appears or the timeout elapses, then throw
`'Intent receipt timeout'`. -/
def waitIntentReceipt (receipts : Nat → IntentReceipt)
    (options : WaitOptions) : Except String IntentReceipt × Nat :=
  let timeout := options.timeout.getD 300000
  let pollInterval := options.pollInterval.getD 2000
  waitGo receipts timeout pollInterval 0 (timeout.toNat + 1)

/-- The `Intent` interface. -/
structure Intent where
  id : String
  originChainId : ℤ
  destinationChainId : ℤ
  originTokenAddress : String
  destinationTokenAddress : String
  originTokenAmount : String
  destinationTokenAmount : String
  ownerAddress : String
  destinationToAddress : String
  expiresAt : ℤ
deriving DecidableEq, Repr

/-- The fee block of a `Quote`. -/
structure Fees where
  totalFeeAmount : String
  totalFeeAmountUsd : String
deriving DecidableEq, Repr

/-- The `Quote` interface. -/
structure Quote where
  intent : Intent
  fromAmount : String
  fromAmountMin : String
  toAmount : String
  toAmountMin : String
  fees : Fees
  priceImpact : String
  completionEstimateSeconds : ℤ
  route : String
deriving DecidableEq, Repr

/-- Result of `commitIntent`. -/
structure CommitResult where
  intentId : String
  expiresAt : ℤ
deriving DecidableEq, Repr

/-- Result of `executeIntent`. -/
structure ExecuteResult where
  txHash : String
deriving DecidableEq, Repr

end TrailsService

-- ===========================================
-- TrailsService.ts : GamePaymentService
-- ===========================================

namespace GamePaymentService

open TrailsService

/-- Character-list prefix test used to embed JS `String.prototype.includes`. -/
def startsWithChars : List Char → List Char → Bool
  | [], _ => true
  | _ :: _, [] => false
  | a :: as, b :: bs => a == b && startsWithChars as bs

/-- Character-list substring test. -/
def hasSubstr (pat : List Char) : List Char → Bool
  | [] => startsWithChars pat []
  | b :: bs => startsWithChars pat (b :: bs) || hasSubstr pat bs

/-- JS `s.includes(pat)`, as used in
`error.message.includes('rejected')`. -/
def includes (s pat : String) : Bool :=
  hasSubstr pat.data s.data

/-- The environment of one `purchaseItem` invocation: whether
`this.address`/`this.signer` are set, the outcomes of the three single-shot
remote steps, and the gateway's answer to each receipt poll.  `item.effect()`
is counted rather than executed, so the wallet/item themselves need no
further representation. -/
structure PurchaseEnv where
  connected : Bool
  quoteRes : Except String Quote
  commitRes : Except String CommitResult
  execRes : Except String ExecuteResult
  receipts : Nat → IntentReceipt

/-- The `try` block of `purchaseItem`: quote, commit, execute,
`waitIntentReceipt(intentId)` (with default options), then apply
`item.effect()` exactly when the receipt status is `completed`.  The second
component of the result counts `item.effect()` invocations. -/
def purchaseBody (env : PurchaseEnv) : Except String (IntentReceipt × Nat) := do
  let _quote ← env.quoteRes
  let _commit ← env.commitRes
  let _exec ← env.execRes
  let receipt ← (waitIntentReceipt env.receipts {}).1
  pure (receipt, if receipt.status = .completed then 1 else 0)

/-- `purchaseItem(item, fromChainId, onStatusUpdate?)`: throw
`'Wallet not connected'` when no address/signer is set (outside the `try`
block); otherwise run the body, and in the `catch` normalize any error whose
message includes `'rejected'` to `'Transaction rejected by user'`, rethrowing
every other error unchanged. -/
def purchaseItem (env : PurchaseEnv) : Except String (IntentReceipt × Nat) :=
  if env.connected then
    match purchaseBody env with
    | .ok result => .ok result
    | .error e =>
      .error (if includes e "rejected" then "Transaction rejected by user"
              else e)
  else .error "Wallet not connected"

end GamePaymentService

-- ===========================================
-- Auxiliary predicates and sample values
-- ===========================================

/-- The three counters the spec calls monotonic, compared pointwise. -/
def CountersLe (g₁ g₂ : GameState) : Prop :=
  g₁.totalClicks ≤ g₂.totalClicks ∧
    g₁.totalCoinsEarned ≤ g₂.totalCoinsEarned ∧
    g₁.purchaseCount ≤ g₂.purchaseCount

/-- The state written by the expiry branch of `checkMultiplierExpiry()`:
multiplier back to 1, end time back to 0, everything else untouched. -/
def expireMultiplier (g : GameState) : GameState :=
  { g with multiplier := 1, multiplierEndTime := 0 }

/-- A state with active auto-generation. -/
def autoActiveState : GameState :=
  { GameStateManager.defaultState with autoPerSecond := 5 }

/-- A state with a live 2x multiplier expiring at time 10. -/
def boostedState : GameState :=
  { GameStateManager.defaultState with multiplier := 2, multiplierEndTime := 10 }

/-- A state with both auto-generation and a live multiplier. -/
def liveState : GameState :=
  { GameStateManager.defaultState with
      autoPerSecond := 5, multiplier := 2, multiplierEndTime := 10 }

/-- A sample intent for concrete purchase runs. -/
def sampleIntent : TrailsService.Intent :=
  { id := "intent-1", originChainId := 1, destinationChainId := 8453,
    originTokenAddress := "0x0", destinationTokenAddress := "0x0",
    originTokenAmount := "230000000000000", destinationTokenAmount := "230000000000000",
    ownerAddress := "0xowner", destinationToAddress := "0xtreasury",
    expiresAt := 1000 }

/-- A sample quote carrying `sampleIntent`. -/
def sampleQuote : TrailsService.Quote :=
  { intent := sampleIntent, fromAmount := "230000000000000",
    fromAmountMin := "230000000000000", toAmount := "230000000000000",
    toAmountMin := "229000000000000",
    fees := { totalFeeAmount := "1000", totalFeeAmountUsd := "0.01" },
    priceImpact := "0", completionEstimateSeconds := 30, route := "RELAY" }

/-- A receipt with terminal status `completed`. -/
def sampleReceiptCompleted : TrailsService.IntentReceipt :=
  { intentId := "intent-1", status := .completed }

/-- A receipt with terminal status `failed`. -/
def sampleReceiptFailed : TrailsService.IntentReceipt :=
  { intentId := "intent-1", status := .failed }

/-- A receipt with non-terminal status `pending`. -/
def sampleReceiptPending : TrailsService.IntentReceipt :=
  { intentId := "intent-1", status := .pending }

/-- A purchase run whose remote steps all succeed and whose first poll
reports `completed`. -/
def envCompleted : GamePaymentService.PurchaseEnv :=
  { connected := true, quoteRes := .ok sampleQuote,
    commitRes := .ok { intentId := "intent-1", expiresAt := 1000 },
    execRes := .ok { txHash := "0xtx" },
    receipts := fun _ => sampleReceiptCompleted }

/-- A purchase run whose remote steps all succeed and whose first poll
reports `failed`. -/
def envFailed : GamePaymentService.PurchaseEnv :=
  { envCompleted with receipts := fun _ => sampleReceiptFailed }

/-- A purchase run whose quote step throws a rejection-flavored error. -/
def envRejected : GamePaymentService.PurchaseEnv :=
  { envCompleted with quoteRes := .error "user rejected the request" }

/-- A purchase run whose quote step throws an unrelated error. -/
def envBoom : GamePaymentService.PurchaseEnv :=
  { envCompleted with quoteRes := .error "boom" }

/-- A gateway whose second poll (index 1) is terminal. -/
def pollSeqTerminal : Nat → TrailsService.IntentReceipt :=
  fun n => if n = 1 then sampleReceiptCompleted else sampleReceiptPending

/-- A gateway that never reaches a terminal status. -/
def pollSeqPending : Nat → TrailsService.IntentReceipt :=
  fun _ => sampleReceiptPending

-- ===========================================
-- Theorems
-- ===========================================

/-- C7: `autoGenerate()` with `autoPerSecond ≤ 0` is a true no-op — it
returns 0, fires no subscriber notification (and no save), and leaves every
field of the state unchanged; with `autoPerSecond > 0` it adds
`autoPerSecond * multiplier` to both `coins` and `totalCoinsEarned` and
returns that amount. -/
theorem autoGenerate_noop_or_earn (k : Nat) (g : GameState) :
    (g.autoPerSecond ≤ 0 → GameStateManager.autoGenerate k g = (g, [], 0)) ∧
    (0 < g.autoPerSecond →
      GameStateManager.autoGenerate k g =
        ({ g with
            coins := g.coins + g.autoPerSecond * g.multiplier,
            totalCoinsEarned := g.totalCoinsEarned + g.autoPerSecond * g.multiplier },
         GameStateManager.notify k
           { g with
              coins := g.coins + g.autoPerSecond * g.multiplier,
              totalCoinsEarned := g.totalCoinsEarned + g.autoPerSecond * g.multiplier },
         g.autoPerSecond * g.multiplier)) := by
  constructor
  · intro h
    simp [GameStateManager.autoGenerate, h]
  · intro h
    simp [GameStateManager.autoGenerate, not_le.mpr h]

/-- Witness for C7: on the default state (`autoPerSecond = 0`) the call is a
no-op; on a state with `autoPerSecond = 5`, `multiplier = 1` it earns 5. -/
theorem autoGenerate_noop_or_earn_witness :
    GameStateManager.autoGenerate 1 GameStateManager.defaultState
      = (GameStateManager.defaultState, [], 0) ∧
    GameStateManager.autoGenerate 1 autoActiveState
      = ({ autoActiveState with coins := 5, totalCoinsEarned := 5 },
         GameStateManager.notify 1 { autoActiveState with coins := 5, totalCoinsEarned := 5 },
         5) := by
  refine ⟨(autoGenerate_noop_or_earn 1 GameStateManager.defaultState).1 (by decide), ?_⟩
  have h := (autoGenerate_noop_or_earn 1 autoActiveState).2
    (by norm_num [autoActiveState, GameStateManager.defaultState])
  have e1 : autoActiveState.coins + autoActiveState.autoPerSecond * autoActiveState.multiplier
      = (5 : ℚ) := by norm_num [autoActiveState, GameStateManager.defaultState]
  have e2 : autoActiveState.totalCoinsEarned
        + autoActiveState.autoPerSecond * autoActiveState.multiplier = (5 : ℚ) := by
    norm_num [autoActiveState, GameStateManager.defaultState]
  have e3 : autoActiveState.autoPerSecond * autoActiveState.multiplier = (5 : ℚ) := by
    norm_num [autoActiveState, GameStateManager.defaultState]
  rw [e1, e2, e3] at h
  exact h

/-- C4 counterexample: `resetState()` on a state with `totalClicks = 1`
strictly decreases the counter `totalClicks` (it resets it to 0), so the
claim that every operation including reset never decreases the counters is
false on the code. -/
theorem resetState_decreases_totalClicks :
    (GameStateManager.resetState 1
        { GameStateManager.defaultState with totalClicks := 1 }).1.totalClicks
      < ({ GameStateManager.defaultState with totalClicks := 1 } : GameState).totalClicks := by
  decide

/-- C4 (amended): for every operation other than reset — click, autoGenerate,
addClickPower, addAutoPerSecond, setMultiplier, checkMultiplierExpiry — and
every starting state satisfying the documented field invariants
(`clickPower`, `autoPerSecond`, `multiplier` nonnegative), the counters
`totalClicks`, `totalCoinsEarned` and `purchaseCount` never decrease;
`resetState` instead restores the default record, setting all three counters
back to 0. -/
theorem counters_monotone (k : Nat) (g : GameState) (a m d t t' : ℚ)
    (hcp : 0 ≤ g.clickPower) (hap : 0 ≤ g.autoPerSecond) (hmu : 0 ≤ g.multiplier) :
    CountersLe g (GameStateManager.click k g).1 ∧
    CountersLe g (GameStateManager.autoGenerate k g).1 ∧
    CountersLe g (GameStateManager.addClickPower k a g).1 ∧
    CountersLe g (GameStateManager.addAutoPerSecond k a g).1 ∧
    CountersLe g (GameStateManager.setMultiplier k m d t g).1 ∧
    CountersLe g (GameStateManager.checkMultiplierExpiry k t' g).1 ∧
    (GameStateManager.resetState k g).1 = GameStateManager.defaultState := by
  have hmul : 0 ≤ g.clickPower * g.multiplier := mul_nonneg hcp hmu
  have hmul2 : 0 ≤ g.autoPerSecond * g.multiplier := mul_nonneg hap hmu
  refine ⟨?_, ?_, ?_, ?_, ?_, ?_, rfl⟩
  · refine ⟨?_, ?_, ?_⟩ <;> (simp [GameStateManager.click]; try linarith)
  · by_cases h : g.autoPerSecond ≤ 0
    · simp [GameStateManager.autoGenerate, h, CountersLe]
    · refine ⟨?_, ?_, ?_⟩ <;>
        (simp [GameStateManager.autoGenerate, h]; try linarith)
  · refine ⟨?_, ?_, ?_⟩ <;> (simp [GameStateManager.addClickPower]; try linarith)
  · refine ⟨?_, ?_, ?_⟩ <;> (simp [GameStateManager.addAutoPerSecond]; try linarith)
  · refine ⟨?_, ?_, ?_⟩ <;> (simp [GameStateManager.setMultiplier]; try linarith)
  · by_cases h : 1 < g.multiplier ∧ g.multiplierEndTime < t'
    · simp [GameStateManager.checkMultiplierExpiry, h, CountersLe]
    · simp [GameStateManager.checkMultiplierExpiry, h, CountersLe]

/-- Witness for C4 (amended), instantiated on the default state. -/
theorem counters_monotone_witness :
    (CountersLe GameStateManager.defaultState
        (GameStateManager.click 1 GameStateManager.defaultState).1 ∧
      CountersLe GameStateManager.defaultState
        (GameStateManager.autoGenerate 1 GameStateManager.defaultState).1 ∧
      CountersLe GameStateManager.defaultState
        (GameStateManager.addClickPower 1 2 GameStateManager.defaultState).1 ∧
      CountersLe GameStateManager.defaultState
        (GameStateManager.addAutoPerSecond 1 2 GameStateManager.defaultState).1 ∧
      CountersLe GameStateManager.defaultState
        (GameStateManager.setMultiplier 1 2 100 0 GameStateManager.defaultState).1 ∧
      CountersLe GameStateManager.defaultState
        (GameStateManager.checkMultiplierExpiry 1 5 GameStateManager.defaultState).1 ∧
      (GameStateManager.resetState 1 GameStateManager.defaultState).1
        = GameStateManager.defaultState) :=
  counters_monotone 1 GameStateManager.defaultState 2 2 100 0 5
    (by decide) (by decide) (by decide)

/-- C6: `checkMultiplierExpiry()` returns true, resets the multiplier to 1
and the end time to 0 and notifies exactly when `multiplier > 1` and the
current time is past `multiplierEndTime`, and otherwise returns false
leaving the state unchanged; after `setMultiplier m d` with `m > 1`, checks
at or before `now + d` return false and leave the multiplier at `m`, and a
check after `now + d` returns true exactly once — any later check on the
reset state returns false. -/
theorem checkMultiplierExpiry_correct (k : Nat) (g g0 : GameState)
    (t m d t0 t1 t2 : ℚ) (hm : 1 < m) :
    (1 < g.multiplier ∧ g.multiplierEndTime < t →
      GameStateManager.checkMultiplierExpiry k t g =
        (expireMultiplier g, GameStateManager.notify k (expireMultiplier g), true)) ∧
    (¬(1 < g.multiplier ∧ g.multiplierEndTime < t) →
      GameStateManager.checkMultiplierExpiry k t g = (g, [], false)) ∧
    (t1 ≤ t0 + d →
      GameStateManager.checkMultiplierExpiry k t1
          (GameStateManager.setMultiplier k m d t0 g0).1
        = ((GameStateManager.setMultiplier k m d t0 g0).1, [], false) ∧
      (GameStateManager.setMultiplier k m d t0 g0).1.multiplier = m) ∧
    (t0 + d < t1 →
      GameStateManager.checkMultiplierExpiry k t1
          (GameStateManager.setMultiplier k m d t0 g0).1
        = (expireMultiplier (GameStateManager.setMultiplier k m d t0 g0).1,
           GameStateManager.notify k
             (expireMultiplier (GameStateManager.setMultiplier k m d t0 g0).1),
           true) ∧
      GameStateManager.checkMultiplierExpiry k t2
          (expireMultiplier (GameStateManager.setMultiplier k m d t0 g0).1)
        = (expireMultiplier (GameStateManager.setMultiplier k m d t0 g0).1,
           [], false)) := by
  refine ⟨?_, ?_, ?_, ?_⟩
  · intro h
    rw [GameStateManager.checkMultiplierExpiry, if_pos h]
    rfl
  · intro h
    rw [GameStateManager.checkMultiplierExpiry, if_neg h]
  · intro h
    constructor
    · rw [GameStateManager.checkMultiplierExpiry, if_neg]
      rintro ⟨-, hlt⟩
      simp only [GameStateManager.setMultiplier] at hlt
      exact absurd hlt (not_lt.mpr h)
    · simp [GameStateManager.setMultiplier]
  · intro h
    constructor
    · rw [GameStateManager.checkMultiplierExpiry, if_pos]
      · rfl
      · exact ⟨by simpa [GameStateManager.setMultiplier] using hm,
          by simpa [GameStateManager.setMultiplier] using h⟩
    · rw [GameStateManager.checkMultiplierExpiry, if_neg]
      rintro ⟨hgt, -⟩
      simp [expireMultiplier] at hgt

/-- Witness for C6: concrete runs on a state with a live 2x multiplier
expiring at time 10, and on `setMultiplier 2 100` issued at time 0 with
checks at times 50 (before expiry), 150 (after expiry) and 300 (after the
reset). -/
theorem checkMultiplierExpiry_correct_witness :
    GameStateManager.checkMultiplierExpiry 1 11 boostedState
      = (expireMultiplier boostedState,
         GameStateManager.notify 1 (expireMultiplier boostedState), true) ∧
    GameStateManager.checkMultiplierExpiry 1 5 boostedState = (boostedState, [], false) ∧
    (GameStateManager.checkMultiplierExpiry 1 50
        (GameStateManager.setMultiplier 1 2 100 0 GameStateManager.defaultState).1
      = ((GameStateManager.setMultiplier 1 2 100 0 GameStateManager.defaultState).1,
         [], false) ∧
      (GameStateManager.setMultiplier 1 2 100 0 GameStateManager.defaultState).1.multiplier
        = 2) ∧
    (GameStateManager.checkMultiplierExpiry 1 150
        (GameStateManager.setMultiplier 1 2 100 0 GameStateManager.defaultState).1
      = (expireMultiplier
           (GameStateManager.setMultiplier 1 2 100 0 GameStateManager.defaultState).1,
         GameStateManager.notify 1
           (expireMultiplier
             (GameStateManager.setMultiplier 1 2 100 0 GameStateManager.defaultState).1),
         true) ∧
      GameStateManager.checkMultiplierExpiry 1 300
          (expireMultiplier
            (GameStateManager.setMultiplier 1 2 100 0 GameStateManager.defaultState).1)
        = (expireMultiplier
            (GameStateManager.setMultiplier 1 2 100 0 GameStateManager.defaultState).1,
           [], false)) := by
  have A := checkMultiplierExpiry_correct 1 boostedState GameStateManager.defaultState
    11 2 100 0 50 300 (by norm_num)
  have B := checkMultiplierExpiry_correct 1 boostedState GameStateManager.defaultState
    5 2 100 0 150 300 (by norm_num)
  refine ⟨A.1 ?_, B.2.1 ?_, A.2.2.1 (by norm_num), B.2.2.2 (by norm_num)⟩
  · exact ⟨by norm_num [boostedState, GameStateManager.defaultState],
      by norm_num [boostedState, GameStateManager.defaultState]⟩
  · rintro ⟨-, habs⟩
    rw [show boostedState.multiplierEndTime = 10 from rfl] at habs
    exact absurd habs (by norm_num)

/-- C3 counterexample: for `click()` on the default state with one
subscriber, the subscriber invocation is the event at index 0 and the
serialization of the record is the event at index 1 — the subscriber is
invoked strictly before the record reaches storage, refuting the claimed
mutate → persist → notify order. -/
theorem click_notifies_before_saving :
    (GameStateManager.click 1 GameStateManager.defaultState).2.1.findIdx
        GameStateManager.Event.isNotified = 0 ∧
    (GameStateManager.click 1 GameStateManager.defaultState).2.1.findIdx
        GameStateManager.Event.isSaved = 1 := by
  constructor <;> rfl

/-- C3 (amended): every notifying mutation runs mutate → notify → persist as
one logical unit — its event trace is the `k` subscriber invocations, each
receiving the post-mutation snapshot, followed by one serialization of that
same post-mutation record (for `autoGenerate` when it earns, and for
`checkMultiplierExpiry` on expiry). -/
theorem mutation_event_order (k : Nat) (g : GameState) (a b m d t0 te : ℚ) :
    (GameStateManager.click k g).2.1
      = List.replicate k (GameStateManager.Event.notified (GameStateManager.click k g).1)
        ++ [GameStateManager.Event.saved (GameStateManager.click k g).1] ∧
    (0 < g.autoPerSecond →
      (GameStateManager.autoGenerate k g).2.1
        = List.replicate k
            (GameStateManager.Event.notified (GameStateManager.autoGenerate k g).1)
          ++ [GameStateManager.Event.saved (GameStateManager.autoGenerate k g).1]) ∧
    (GameStateManager.addClickPower k a g).2
      = List.replicate k
          (GameStateManager.Event.notified (GameStateManager.addClickPower k a g).1)
        ++ [GameStateManager.Event.saved (GameStateManager.addClickPower k a g).1] ∧
    (GameStateManager.addAutoPerSecond k b g).2
      = List.replicate k
          (GameStateManager.Event.notified (GameStateManager.addAutoPerSecond k b g).1)
        ++ [GameStateManager.Event.saved (GameStateManager.addAutoPerSecond k b g).1] ∧
    (GameStateManager.setMultiplier k m d t0 g).2
      = List.replicate k
          (GameStateManager.Event.notified (GameStateManager.setMultiplier k m d t0 g).1)
        ++ [GameStateManager.Event.saved (GameStateManager.setMultiplier k m d t0 g).1] ∧
    (1 < g.multiplier ∧ g.multiplierEndTime < te →
      (GameStateManager.checkMultiplierExpiry k te g).2.1
        = List.replicate k
            (GameStateManager.Event.notified (GameStateManager.checkMultiplierExpiry k te g).1)
          ++ [GameStateManager.Event.saved (GameStateManager.checkMultiplierExpiry k te g).1]) ∧
    (GameStateManager.resetState k g).2
      = List.replicate k
          (GameStateManager.Event.notified (GameStateManager.resetState k g).1)
        ++ [GameStateManager.Event.saved (GameStateManager.resetState k g).1] := by
  refine ⟨rfl, ?_, rfl, rfl, rfl, ?_, rfl⟩
  · intro h
    rw [GameStateManager.autoGenerate, if_neg (not_le.mpr h)]
    rfl
  · intro h
    simp only [GameStateManager.checkMultiplierExpiry]
    rw [if_pos h]
    rfl

/-- Witness for C3 (amended), instantiated with one subscriber on a state
with active auto-generation and a live multiplier. -/
theorem mutation_event_order_witness :
    (GameStateManager.click 1 liveState).2.1
      = List.replicate 1 (GameStateManager.Event.notified (GameStateManager.click 1 liveState).1)
        ++ [GameStateManager.Event.saved (GameStateManager.click 1 liveState).1] ∧
    (GameStateManager.autoGenerate 1 liveState).2.1
      = List.replicate 1
          (GameStateManager.Event.notified (GameStateManager.autoGenerate 1 liveState).1)
        ++ [GameStateManager.Event.saved (GameStateManager.autoGenerate 1 liveState).1] ∧
    (GameStateManager.addClickPower 1 2 liveState).2
      = List.replicate 1
          (GameStateManager.Event.notified (GameStateManager.addClickPower 1 2 liveState).1)
        ++ [GameStateManager.Event.saved (GameStateManager.addClickPower 1 2 liveState).1] ∧
    (GameStateManager.addAutoPerSecond 1 3 liveState).2
      = List.replicate 1
          (GameStateManager.Event.notified (GameStateManager.addAutoPerSecond 1 3 liveState).1)
        ++ [GameStateManager.Event.saved (GameStateManager.addAutoPerSecond 1 3 liveState).1] ∧
    (GameStateManager.setMultiplier 1 2 100 0 liveState).2
      = List.replicate 1
          (GameStateManager.Event.notified (GameStateManager.setMultiplier 1 2 100 0 liveState).1)
        ++ [GameStateManager.Event.saved (GameStateManager.setMultiplier 1 2 100 0 liveState).1] ∧
    (GameStateManager.checkMultiplierExpiry 1 11 liveState).2.1
      = List.replicate 1
          (GameStateManager.Event.notified (GameStateManager.checkMultiplierExpiry 1 11 liveState).1)
        ++ [GameStateManager.Event.saved (GameStateManager.checkMultiplierExpiry 1 11 liveState).1] ∧
    (GameStateManager.resetState 1 liveState).2
      = List.replicate 1
          (GameStateManager.Event.notified (GameStateManager.resetState 1 liveState).1)
        ++ [GameStateManager.Event.saved (GameStateManager.resetState 1 liveState).1] := by
  have h := mutation_event_order 1 liveState 2 3 2 100 0 11
  exact ⟨h.1, h.2.1 (by norm_num [liveState, GameStateManager.defaultState]),
    h.2.2.1, h.2.2.2.1, h.2.2.2.2.1,
    h.2.2.2.2.2.1 ⟨by norm_num [liveState, GameStateManager.defaultState],
      by norm_num [liveState, GameStateManager.defaultState]⟩,
    h.2.2.2.2.2.2⟩

/-- Helper for the accounting property: along any `click`/`autoGenerate`
sequence, `totalCoinsEarned` grows by exactly the sum of the returned
amounts, and the difference `coins - totalCoinsEarned` is invariant. -/
theorem runOps_invariant (k : Nat) (ops : List GameStateManager.EarnOp) :
    ∀ g : GameState,
      (GameStateManager.runOps k ops g).1.totalCoinsEarned
        = g.totalCoinsEarned + ((GameStateManager.runOps k ops g).2).sum ∧
      (GameStateManager.runOps k ops g).1.coins
          - (GameStateManager.runOps k ops g).1.totalCoinsEarned
        = g.coins - g.totalCoinsEarned := by
  induction ops with
  | nil => intro g; simp [GameStateManager.runOps]
  | cons op rest ih =>
    intro g
    cases op with
    | clickOp =>
      have h := ih (GameStateManager.click k g).1
      simp only [GameStateManager.runOps, List.sum_cons]
      have hc1 : (GameStateManager.click k g).1.totalCoinsEarned
          = g.totalCoinsEarned + g.clickPower * g.multiplier := by
        simp [GameStateManager.click]
      have hc2 : (GameStateManager.click k g).1.coins
          = g.coins + g.clickPower * g.multiplier := by
        simp [GameStateManager.click]
      have hc3 : (GameStateManager.click k g).2.2 = g.clickPower * g.multiplier := by
        simp [GameStateManager.click]
      constructor
      · rw [h.1, hc1, hc3]; ring
      · rw [h.2, hc1, hc2]; ring
    | autoOp =>
      have h := ih (GameStateManager.autoGenerate k g).1
      simp only [GameStateManager.runOps, List.sum_cons]
      by_cases ha : g.autoPerSecond ≤ 0
      · have hg : GameStateManager.autoGenerate k g = (g, [], 0) := by
          simp [GameStateManager.autoGenerate, ha]
        rw [hg] at h ⊢
        constructor
        · rw [h.1]; ring
        · exact h.2
      · have hc1 : (GameStateManager.autoGenerate k g).1.totalCoinsEarned
            = g.totalCoinsEarned + g.autoPerSecond * g.multiplier := by
          simp [GameStateManager.autoGenerate, ha]
        have hc2 : (GameStateManager.autoGenerate k g).1.coins
            = g.coins + g.autoPerSecond * g.multiplier := by
          simp [GameStateManager.autoGenerate, ha]
        have hc3 : (GameStateManager.autoGenerate k g).2.2
            = g.autoPerSecond * g.multiplier := by
          simp [GameStateManager.autoGenerate, ha]
        constructor
        · rw [h.1, hc1, hc3]; ring
        · rw [h.2, hc1, hc2]; ring

/-- C5: starting from the default record, for every finite sequence of
`click()` / `autoGenerate()` calls, `totalCoinsEarned` equals the sum of the
returned earned amounts, `coins` equals `totalCoinsEarned`, and in
particular `coins ≤ totalCoinsEarned` in every state so reachable. -/
theorem earn_accounting (k : Nat) (ops : List GameStateManager.EarnOp) :
    (GameStateManager.runOps k ops GameStateManager.defaultState).1.totalCoinsEarned
      = ((GameStateManager.runOps k ops GameStateManager.defaultState).2).sum ∧
    (GameStateManager.runOps k ops GameStateManager.defaultState).1.coins
      = (GameStateManager.runOps k ops GameStateManager.defaultState).1.totalCoinsEarned ∧
    (GameStateManager.runOps k ops GameStateManager.defaultState).1.coins
      ≤ (GameStateManager.runOps k ops GameStateManager.defaultState).1.totalCoinsEarned := by
  have h := runOps_invariant k ops GameStateManager.defaultState
  have hd1 : GameStateManager.defaultState.totalCoinsEarned = 0 := rfl
  have hd2 : GameStateManager.defaultState.coins = 0 := rfl
  rw [hd1, hd2] at h
  refine ⟨by linarith [h.1], by linarith [h.2], by linarith [h.2]⟩

/-- C2 counterexample: an empty stored object — parseable JSON with every
key missing — is returned by `loadState` exactly as parsed, not replaced by
the full default record, refuting the claimed fallback for unknown/missing
keys. -/
theorem loadState_returns_unvalidated :
    GameStateManager.loadState (GameStateManager.Stored.parsed
        ⟨none, none, none, none, none, none, none, none⟩)
      ≠ GameStateManager.toRaw GameStateManager.defaultState := by
  decide

/-- C2 (amended): saving then loading reproduces the identical record, and a
missing or malformed (unparseable) storage slot yields the documented
default record (coins 0, clickPower 1, autoPerSecond 0, multiplier 1,
multiplierEndTime 0, totalClicks 0, totalCoinsEarned 0, purchaseCount 0);
but any parseable stored object is returned exactly as parsed, with no
validation — unknown or missing keys do not trigger a fallback to
defaults. -/
theorem loadState_roundtrip_and_defaults :
    (∀ g : GameState,
      GameStateManager.loadState (GameStateManager.saveState g)
        = GameStateManager.toRaw g) ∧
    GameStateManager.loadState .missing
      = GameStateManager.toRaw GameStateManager.defaultState ∧
    GameStateManager.loadState .malformed
      = GameStateManager.toRaw GameStateManager.defaultState ∧
    GameStateManager.defaultState
      = { coins := 0, clickPower := 1, autoPerSecond := 0, multiplier := 1,
          multiplierEndTime := 0, totalClicks := 0, totalCoinsEarned := 0,
          purchaseCount := 0 } ∧
    (∀ r : GameStateManager.RawState,
      GameStateManager.loadState (.parsed r) = r) :=
  ⟨fun _ => rfl, rfl, rfl, rfl, fun _ => rfl⟩

/-- Helper: when no receipt inside the timeout window is terminal, the poll
loop ends in the timeout error whatever the fuel. -/
theorem waitGo_no_terminal (receipts : Nat → TrailsService.IntentReceipt)
    (timeout pollInterval : ℤ)
    (h : ∀ j : Nat, (j : ℤ) * pollInterval < timeout →
      TrailsService.isTerminal (receipts j).status = false) :
    ∀ (fuel k : Nat),
      (TrailsService.waitGo receipts timeout pollInterval k fuel).1
        = .error "Intent receipt timeout" := by
  intro fuel
  induction fuel with
  | zero => intro k; rfl
  | succ n ih =>
    intro k
    rw [TrailsService.waitGo]
    by_cases hk : (k : ℤ) * pollInterval < timeout
    · rw [if_pos hk, h k hk]
      simpa using ih (k + 1)
    · rw [if_neg hk]

/-- Helper: with a nonnegative poll interval, the loop returns the first
terminal receipt inside the timeout window, given enough fuel. -/
theorem waitGo_first_terminal (receipts : Nat → TrailsService.IntentReceipt)
    (timeout pollInterval : ℤ) (hp : 0 ≤ pollInterval) (j : Nat)
    (hj : (j : ℤ) * pollInterval < timeout)
    (hterm : TrailsService.isTerminal (receipts j).status = true)
    (hmin : ∀ i : Nat, i < j → TrailsService.isTerminal (receipts i).status = false) :
    ∀ (fuel k : Nat), k ≤ j → j - k < fuel →
      TrailsService.waitGo receipts timeout pollInterval k fuel
        = (.ok (receipts j), j + 1) := by
  intro fuel
  induction fuel with
  | zero => intro k _ h2; omega
  | succ n ih =>
    intro k hk h2
    have hguard : (k : ℤ) * pollInterval < timeout := by
      have hkj : (k : ℤ) ≤ (j : ℤ) := by exact_mod_cast hk
      have := mul_le_mul_of_nonneg_right hkj hp
      linarith
    rw [TrailsService.waitGo, if_pos hguard]
    rcases eq_or_lt_of_le hk with heq | hlt
    · subst heq
      rw [hterm]
      rfl
    · rw [hmin k hlt]
      simpa using ih (k + 1) (by omega) (by omega)

/-- C8: `waitIntentReceipt` polls `getIntentReceipt` at the configured
interval (default 2000 ms; the `k`-th poll happens at elapsed time
`k * pollInterval`) and returns the first receipt whose status is terminal
(completed, failed or refunded); when no terminal receipt is obtained before
the timeout (default 300000 ms) elapses, it fails with the
`'Intent receipt timeout'` error. -/
theorem waitIntentReceipt_poll_until_terminal
    (receipts : Nat → TrailsService.IntentReceipt) (tOpt pOpt : Option ℤ)
    (hp : 1 ≤ pOpt.getD 2000) :
    (∀ j : Nat, (j : ℤ) * pOpt.getD 2000 < tOpt.getD 300000 →
      TrailsService.isTerminal (receipts j).status = true →
      (∀ i : Nat, i < j → TrailsService.isTerminal (receipts i).status = false) →
      TrailsService.waitIntentReceipt receipts ⟨tOpt, pOpt⟩
        = (.ok (receipts j), j + 1)) ∧
    ((∀ j : Nat, (j : ℤ) * pOpt.getD 2000 < tOpt.getD 300000 →
        TrailsService.isTerminal (receipts j).status = false) →
      (TrailsService.waitIntentReceipt receipts ⟨tOpt, pOpt⟩).1
        = .error "Intent receipt timeout") := by
  constructor
  · intro j hj hterm hmin
    have hj' : (j : ℤ) < tOpt.getD 300000 := by
      have h1 : (j : ℤ) * 1 ≤ (j : ℤ) * pOpt.getD 2000 :=
        mul_le_mul_of_nonneg_left hp (by positivity)
      linarith
    have hfuel : j - 0 < (tOpt.getD 300000).toNat + 1 := by omega
    exact waitGo_first_terminal receipts _ _ (by linarith) j hj hterm hmin _ 0
      (Nat.zero_le j) hfuel
  · intro h
    exact waitGo_no_terminal receipts _ _ h _ 0

/-- Witness for C8: with timeout 10 and poll interval 2, a gateway whose
second answer is terminal yields that receipt after two polls, and a gateway
that stays `pending` yields the timeout error. -/
theorem waitIntentReceipt_poll_until_terminal_witness :
    TrailsService.waitIntentReceipt pollSeqTerminal ⟨some 10, some 2⟩
      = (.ok (pollSeqTerminal 1), 2) ∧
    (TrailsService.waitIntentReceipt pollSeqPending ⟨some 4, some 2⟩).1
      = .error "Intent receipt timeout" := by
  constructor
  · exact (waitIntentReceipt_poll_until_terminal pollSeqTerminal
      (some 10) (some 2) (by decide)).1 1 (by decide) (by decide)
      (fun i hi => by
        have : i = 0 := by omega
        subst this
        decide)
  · exact (waitIntentReceipt_poll_until_terminal pollSeqPending
      (some 4) (some 2) (by decide)).2 (fun j _ => rfl)

/-- C10: `waitIntentReceipt` with a timeout option ≤ 0 fails immediately
with the timeout error without performing a single `getIntentReceipt` poll
(poll count 0), whatever the gateway would have answered. -/
theorem waitIntentReceipt_nonpositive_timeout
    (receipts : Nat → TrailsService.IntentReceipt) (t : ℤ) (pOpt : Option ℤ)
    (ht : t ≤ 0) :
    TrailsService.waitIntentReceipt receipts ⟨some t, pOpt⟩
      = (.error "Intent receipt timeout", 0) := by
  rw [TrailsService.waitIntentReceipt]
  have h0 : t.toNat = 0 := Int.toNat_of_nonpos ht
  simp only [Option.getD, h0]
  rw [TrailsService.waitGo]
  rw [if_neg]
  intro habs
  simp only [Nat.cast_zero, zero_mul] at habs
  omega

/-- Witness for C10: timeout 0 against a gateway whose very first answer
would already be terminal still yields the timeout error with zero polls. -/
theorem waitIntentReceipt_nonpositive_timeout_witness :
    TrailsService.waitIntentReceipt (fun _ => sampleReceiptCompleted) ⟨some 0, none⟩
      = (.error "Intent receipt timeout", 0) ∧
    TrailsService.isTerminal
        ((fun _ => sampleReceiptCompleted) (0 : Nat)).status = true :=
  ⟨waitIntentReceipt_nonpositive_timeout (fun _ => sampleReceiptCompleted) 0 none
    (le_refl 0), rfl⟩

/-- C1: when a purchase invocation reaches a terminal receipt (connected
wallet, quote/commit/execute succeed, `waitIntentReceipt` returns a
receipt): if the status is `completed`, `purchaseItem` invokes
`item.effect()` exactly once (effect count 1) and returns that receipt; if
the status is `failed` or `refunded`, it returns the receipt with the effect
never invoked (effect count 0) and without throwing. -/
theorem purchaseItem_terminal_receipt (env : GamePaymentService.PurchaseEnv)
    (q : TrailsService.Quote) (c : TrailsService.CommitResult)
    (x : TrailsService.ExecuteResult) (r : TrailsService.IntentReceipt)
    (hconn : env.connected = true)
    (hq : env.quoteRes = .ok q) (hc : env.commitRes = .ok c)
    (hx : env.execRes = .ok x)
    (hw : (TrailsService.waitIntentReceipt env.receipts {}).1 = .ok r) :
    (r.status = .completed →
      GamePaymentService.purchaseItem env = .ok (r, 1)) ∧
    ((r.status = .failed ∨ r.status = .refunded) →
      GamePaymentService.purchaseItem env = .ok (r, 0)) := by
  have hbody : GamePaymentService.purchaseBody env
      = .ok (r, if r.status = .completed then 1 else 0) := by
    simp [GamePaymentService.purchaseBody, hq, hc, hx, hw, bind, Except.bind,
      pure, Except.pure]
  constructor
  · intro h
    simp [GamePaymentService.purchaseItem, hconn, hbody, h]
  · rintro (h | h) <;> simp [GamePaymentService.purchaseItem, hconn, hbody, h]

/-- Witness for C1: a fully successful run ending `completed` applies the
effect once; the same run ending `failed` returns the receipt with the
effect never applied. -/
theorem purchaseItem_terminal_receipt_witness :
    GamePaymentService.purchaseItem envCompleted = .ok (sampleReceiptCompleted, 1) ∧
    GamePaymentService.purchaseItem envFailed = .ok (sampleReceiptFailed, 0) := by
  constructor
  · exact (purchaseItem_terminal_receipt envCompleted sampleQuote
      { intentId := "intent-1", expiresAt := 1000 } { txHash := "0xtx" }
      sampleReceiptCompleted rfl rfl rfl rfl (by rfl)).1 rfl
  · exact (purchaseItem_terminal_receipt envFailed sampleQuote
      { intentId := "intent-1", expiresAt := 1000 } { txHash := "0xtx" }
      sampleReceiptFailed rfl rfl rfl rfl (by rfl)).2 (Or.inl rfl)

/-- C9 counterexample: a non-2xx response whose body is not parseable JSON
produces the error message `'Unknown error'` — not the generic status-coded
message the claim prescribes for the no-provider-message case (which is
`'API error: 500'` for status 500). -/
theorem request_unparseable_body_not_status_coded :
    TrailsService.request { ok := false, status := 500, jsonBody := none }
      = .error "Unknown error" ∧
    TrailsService.requestErrorMessage 500 (some none) = "API error: 500" ∧
    ("Unknown error" : String) ≠ "API error: 500" := by
  refine ⟨rfl, ?_, by decide⟩
  rfl

/-- C9 (amended): a non-2xx response yields an error carrying the provider's
non-empty `message` field when the body parses to JSON with one; a JSON body
without a usable message yields the generic status-coded message; a body
that is not parseable JSON yields the fixed `'Unknown error'` message.
Within `purchaseItem`, a thrown error whose message includes `'rejected'` is
normalized to the distinguished `'Transaction rejected by user'` error,
while every other error propagates to the caller unchanged. -/
theorem request_error_and_rejection_normalization :
    (∀ (st : Nat) (m : String), m ≠ "" →
      TrailsService.request { ok := false, status := st, jsonBody := some (some m) }
        = .error m) ∧
    (∀ st : Nat,
      TrailsService.request { ok := false, status := st, jsonBody := some none }
        = .error ("API error: " ++ toString st)) ∧
    (∀ st : Nat,
      TrailsService.request { ok := false, status := st, jsonBody := some (some "") }
        = .error ("API error: " ++ toString st)) ∧
    (∀ st : Nat,
      TrailsService.request { ok := false, status := st, jsonBody := none }
        = .error "Unknown error") ∧
    (∀ (env : GamePaymentService.PurchaseEnv) (e : String),
      env.connected = true → GamePaymentService.purchaseBody env = .error e →
      GamePaymentService.includes e "rejected" = true →
      GamePaymentService.purchaseItem env = .error "Transaction rejected by user") ∧
    (∀ (env : GamePaymentService.PurchaseEnv) (e : String),
      env.connected = true → GamePaymentService.purchaseBody env = .error e →
      GamePaymentService.includes e "rejected" = false →
      GamePaymentService.purchaseItem env = .error e) := by
  refine ⟨?_, ?_, ?_, ?_, ?_, ?_⟩
  · intro st m hm
    simp [TrailsService.request, TrailsService.requestErrorMessage, hm]
  · intro st
    simp [TrailsService.request, TrailsService.requestErrorMessage]
  · intro st
    simp [TrailsService.request, TrailsService.requestErrorMessage]
  · intro st
    simp [TrailsService.request, TrailsService.requestErrorMessage]
  · intro env e hc hb hr
    simp [GamePaymentService.purchaseItem, hc, hb, hr]
  · intro env e hc hb hr
    simp [GamePaymentService.purchaseItem, hc, hb, hr]

/-- Witness for C9 (amended): concrete non-2xx responses for each body shape,
a purchase whose quote step throws a rejection-flavored error (normalized)
and one whose quote step throws `'boom'` (propagated unchanged). -/
theorem request_error_and_rejection_normalization_witness :
    TrailsService.request { ok := false, status := 404, jsonBody := some (some "no route") }
      = .error "no route" ∧
    TrailsService.request { ok := false, status := 404, jsonBody := some none }
      = .error ("API error: " ++ toString (404 : Nat)) ∧
    TrailsService.request { ok := false, status := 404, jsonBody := some (some "") }
      = .error ("API error: " ++ toString (404 : Nat)) ∧
    TrailsService.request { ok := false, status := 502, jsonBody := none }
      = .error "Unknown error" ∧
    GamePaymentService.purchaseItem envRejected
      = .error "Transaction rejected by user" ∧
    GamePaymentService.purchaseItem envBoom = .error "boom" := by
  have h := request_error_and_rejection_normalization
  exact ⟨h.1 404 "no route" (by decide), h.2.1 404, h.2.2.1 404, h.2.2.2.1 502,
    h.2.2.2.2.1 envRejected "user rejected the request" rfl (by rfl) (by decide),
    h.2.2.2.2.2 envBoom "boom" rfl (by rfl) (by decide)⟩
